import Mathlib

/-!
Shallow embedding of the H5P content-user-data core:

* `ContentUserDataManager` from
  `src/packages/h5p-server/src/ContentUserDataManager.ts`
  (methods `loadContentUserData`, `saveContentUserData`,
  `generateContentUserDataIntegration`, `deleteContentUserDataByUserId`,
  `deleteAllContentUserDataByContentId`, `setFinished`);
* `ContentUserDataController.postContentUserData` from
  `src/packages/h5p-express/src/ContentUserDataRouter/ContentUserDataController.ts`.

The storage backend (`IContentUserDataStorage`) is an external dependency of
the repository; it is represented abstractly by a record of operations over a
backend state type, together with the contract the spec states for it
(upsert by the key (contentId, userId, dataType, subContentId), delete by
(contentId, userId)).  A concrete in-memory instance satisfying the contract
is provided for witnesses.

JavaScript dynamic values that matter to the code (the `typeof x ===
'boolean'` check and the wire coercion `x === 1 || x === '1'`) are embedded
as the inductive `JSVal`.  `Number(s)` on subContentId strings is embedded by
`jsNumber`, covering the cases the code meets: the empty string (value 0) and
non-negative decimal digit strings; every other string is `none` (NaN).
`Array.prototype.sort` with the comparator
`(a, b) => Number(a.subContentId) - Number(b.subContentId)` is embedded by
the stable sort `sortJS` (per the ECMAScript spec, sort is stable and a NaN
comparator result is treated as 0).
-/

/-- Dynamically typed JavaScript value, covering the cases distinguished by
the code: booleans (`typeof x === 'boolean'`), numbers and strings
(`x === 1`, `x === '1'`). -/
inductive JSVal where
  | bool (b : Bool)
  | num (n : Int)
  | str (s : String)
deriving DecidableEq, Repr

/-- Embeds the JavaScript test `typeof v === 'boolean'`. -/
def JSVal.isBoolean : JSVal → Bool
  | .bool _ => true
  | _ => false

/-- Extracts the boolean from a `JSVal` known to be a boolean (the code only
uses `invalidate` / `preload` as conditions after the `typeof` check has
passed, so the non-boolean case is unreachable there). -/
def JSVal.asBool : JSVal → Bool
  | .bool b => b
  | _ => false

/-- Embeds JavaScript `Number(s)` for the subContentId strings the code
meets: `Number("") = 0`, a non-empty string of decimal digits is its decimal
value, and every other string is NaN (`none`). -/
def jsNumber (s : String) : Option Int :=
  if s = "" then some 0
  else if s.data.all (fun c => c.isDigit) then
    some ((s.data.foldl (fun acc c => 10 * acc + (c.toNat - 48)) 0 : Nat) : Int)
  else none

/-- Comparator value of the sort in `generateContentUserDataIntegration`:
`Number(a.subContentId) - Number(b.subContentId)`, with a NaN result treated
as 0 as the ECMAScript SortCompare rule prescribes. -/
def subCmp (a b : String) : Int :=
  match jsNumber a, jsNumber b with
  | some x, some y => x - y
  | _, _ => 0

/-- Stable insertion step: places `x` before the first element `y` with
`cmp x y ≤ 0`, keeping earlier elements of the original array before `x`
whenever the comparator ties. -/
def insertSorted {α : Type} (cmp : α → α → Int) (x : α) : List α → List α
  | [] => [x]
  | y :: ys => if cmp x y ≤ 0 then x :: y :: ys else y :: insertSorted cmp x ys

/-- Stable sort modelling `Array.prototype.sort(comparator)` for a consistent
comparator (ECMAScript guarantees stability). -/
def sortJS {α : Type} (cmp : α → α → Int) : List α → List α
  | [] => []
  | x :: xs => insertSorted cmp x (sortJS cmp xs)

/-- Stored user-data record (`IContentUserData` of the source's type module):
the atomic persisted unit keyed by (contentId, userId, dataType,
subContentId). -/
structure IContentUserData where
  contentId : String
  userId : String
  dataType : String
  subContentId : String
  userState : String
  preload : Bool
deriving DecidableEq, Repr

/-- Calls the manager can make into the storage backend; recorded so that
theorems can state that no backend call happens on a given path. -/
inductive BackendCall where
  | deleteContentUserDataByUserId (contentId userId : String)
  | deleteAllContentUserDataByContentId (contentId : String)
  | loadContentUserData (contentId dataType subContentId userId : String)
  | saveContentUserData (contentId dataType subContentId userState : String)
      (invalidate preload : Bool) (userId : String)
  | listByContent (contentId userId : String)
  | saveFinishedDataForUser (contentId : String) (score maxScore : Int)
      (openedTimestamp finishedTimestamp completionTime : Int) (userId : String)
deriving DecidableEq, Repr

/-- Abstract storage backend (`IContentUserDataStorage`): a state type with
the operations the manager calls.  The backend itself is an external
dependency of the repository, so only its interface is embedded. -/
structure BackendOps (σ : Type) where
  loadContentUserData : σ → String → String → String → String → Option IContentUserData
  saveContentUserData : σ → String → String → String → String → Bool → String → σ
  deleteContentUserDataByUserId : σ → String → String → σ
  deleteAllContentUserDataByContentId : σ → String → σ
  listByContent : σ → String → String → List IContentUserData

/-- Backend contract stated by the spec: the tuple (contentId, userId,
dataType, subContentId) uniquely identifies at most one stored record, the
backend upserts on that key, and delete-by-user removes every record of the
(contentId, userId) pair. -/
structure BackendContract {σ : Type} (B : BackendOps σ) : Prop where
  load_after_save : ∀ (s : σ) (cid dt sub us : String) (pre : Bool) (uid : String),
    B.loadContentUserData (B.saveContentUserData s cid dt sub us pre uid) cid dt sub uid
      = some ⟨cid, uid, dt, sub, us, pre⟩
  load_after_deleteByUser : ∀ (s : σ) (cid uid dt sub : String),
    B.loadContentUserData (B.deleteContentUserDataByUserId s cid uid) cid dt sub uid
      = none

/-- Errors a call can surface: the explicit `throw new Error(...)` of the
argument validation, and the JavaScript TypeError raised by invoking a
method on an undefined `contentUserDataStorage`. -/
inductive JsError where
  | validationError
  | typeErrorUndefinedStorage
deriving DecidableEq, Repr

/-- Embeds `ContentUserDataManager.loadContentUserData`: returns `undefined`
when no storage is configured, otherwise delegates to the backend.  The
manager state is `Option σ` (`none` = no backend configured); the second
component records the backend calls made. -/
def loadContentUserData {σ : Type} (B : BackendOps σ) (store : Option σ)
    (contentId dataType subContentId userId : String) :
    Option IContentUserData × List BackendCall :=
  match store with
  | none => (none, [])
  | some s =>
      (B.loadContentUserData s contentId dataType subContentId userId,
       [BackendCall.loadContentUserData contentId dataType subContentId userId])

/-- Embeds `ContentUserDataManager.saveContentUserData`, line for line:
first the `typeof` validation of `invalidate` and `preload` (throws before
any backend access); then the `invalidate` branch, which calls
`deleteContentUserDataByUserId` on `this.contentUserDataStorage` WITHOUT a
null guard (on an unconfigured backend this is a TypeError); then the
guarded upsert branch; an unconfigured backend falls through to an implicit
`return undefined`.  Returns the outcome together with the resulting
manager state and the backend calls made. -/
def saveContentUserData {σ : Type} (B : BackendOps σ) (store : Option σ)
    (contentId dataType subContentId userState : String)
    (invalidate preload : JSVal) (userId : String) :
    Except JsError (Option σ) × List BackendCall :=
  if ¬ (invalidate.isBoolean && preload.isBoolean) then
    (Except.error JsError.validationError, [])
  else if invalidate.asBool then
    match store with
    | none => (Except.error JsError.typeErrorUndefinedStorage, [])
    | some s =>
        (Except.ok (some (B.deleteContentUserDataByUserId s contentId userId)),
         [BackendCall.deleteContentUserDataByUserId contentId userId])
  else
    match store with
    | none => (Except.ok none, [])
    | some s =>
        (Except.ok (some (B.saveContentUserData s contentId dataType subContentId
            userState preload.asBool userId)),
         [BackendCall.saveContentUserData contentId dataType subContentId userState
            invalidate.asBool preload.asBool userId])

/-- Embeds `ContentUserDataManager.generateContentUserDataIntegration`:
returns `undefined` with no backend; otherwise lists the records for
(contentId, userId), sorts them by `Number(subContentId)` ascending, filters
out records with `preload` false, and maps each survivor to the single-key
object `{ [dataType]: userState }` (embedded as the pair
`(dataType, userState)`). -/
def generateContentUserDataIntegration {σ : Type} (B : BackendOps σ)
    (store : Option σ) (contentId userId : String) :
    Option (List (String × String)) × List BackendCall :=
  match store with
  | none => (none, [])
  | some s =>
      let states := B.listByContent s contentId userId
      let sortedStates := sortJS (fun a b => subCmp a.subContentId b.subContentId) states
      let mappedStates := (sortedStates.filter (fun st => st.preload)).map
        (fun st => (st.dataType, st.userState))
      (some mappedStates, [BackendCall.listByContent contentId userId])

/-- Embeds `ContentUserDataController.postContentUserData` of the express
transport adapter: coerces the wire values of `invalidate` and `preload`
with `body.invalidate === 1 || body.invalidate === '1'` (strict equality)
and calls the manager's save operation with true booleans. -/
def wireCoerce (v : JSVal) : Bool :=
  v == JSVal.num 1 || v == JSVal.str "1"

/-- Embeds the body of `postContentUserData`: the manager call it makes,
with both flags coerced by `wireCoerce`. -/
def postContentUserData {σ : Type} (B : BackendOps σ) (store : Option σ)
    (contentId dataType subContentId bodyData : String)
    (bodyInvalidate bodyPreload : JSVal) (userId : String) :
    Except JsError (Option σ) × List BackendCall :=
  saveContentUserData B store contentId dataType subContentId bodyData
    (JSVal.bool (wireCoerce bodyInvalidate)) (JSVal.bool (wireCoerce bodyPreload)) userId

/-- Key of a stored record, for the in-memory reference backend. -/
def recordKey (r : IContentUserData) : String × String × String × String :=
  (r.contentId, r.userId, r.dataType, r.subContentId)

/-- In-memory reference backend used by witnesses: a list of records with
upsert-by-key save, exact-key load, and delete of all records of a
(contentId, userId) pair. -/
def memBackend : BackendOps (List IContentUserData) where
  loadContentUserData s cid dt sub uid :=
    s.find? (fun r => recordKey r = (cid, uid, dt, sub))
  saveContentUserData s cid dt sub us pre uid :=
    ⟨cid, uid, dt, sub, us, pre⟩ ::
      s.filter (fun r => recordKey r ≠ (cid, uid, dt, sub))
  deleteContentUserDataByUserId s cid uid :=
    s.filter (fun r => ¬ (r.contentId = cid ∧ r.userId = uid))
  deleteAllContentUserDataByContentId s cid :=
    s.filter (fun r => r.contentId ≠ cid)
  listByContent s cid uid :=
    s.filter (fun r => r.contentId = cid ∧ r.userId = uid)

/-- Inserting with `insertSorted` is a permutation of consing. -/
theorem insertSorted_perm {α : Type} (cmp : α → α → Int) (x : α) :
    ∀ l : List α, List.Perm (insertSorted cmp x l) (x :: l)
  | [] => List.Perm.refl _
  | y :: ys => by
      unfold insertSorted
      by_cases h : cmp x y ≤ 0
      · rw [if_pos h]
      · rw [if_neg h]
        exact ((insertSorted_perm cmp x ys).cons y).trans (List.Perm.swap x y ys)

/-- The stable sort is a permutation of its input. -/
theorem sortJS_perm {α : Type} (cmp : α → α → Int) :
    ∀ l : List α, List.Perm (sortJS cmp l) l
  | [] => List.Perm.refl _
  | x :: xs =>
      (insertSorted_perm cmp x (sortJS cmp xs)).trans ((sortJS_perm cmp xs).cons x)

/-- The in-memory reference backend satisfies the storage contract. -/
theorem memContract : BackendContract memBackend := by
  refine ⟨?_, ?_⟩
  · intro s cid dt sub us pre uid
    simp [memBackend, List.find?, recordKey]
  · intro s cid uid dt sub
    simp only [memBackend]
    rw [List.find?_eq_none]
    intro r hr
    rw [List.mem_filter] at hr
    simp only [recordKey, decide_eq_true_eq, Prod.mk.injEq] at *
    intro h1
    exact hr.2 ⟨h1.1, h1.2.1⟩

/-- Every element of the delivered sequence comes from a preload-true record
of the backend's listing. -/
theorem integration_mem {σ : Type} (B : BackendOps σ) (s : σ) (cid uid : String)
    (l : List (String × String))
    (hl : (generateContentUserDataIntegration B (some s) cid uid).1 = some l) :
    ∀ p ∈ l, ∃ r ∈ B.listByContent s cid uid,
      r.preload = true ∧ p = (r.dataType, r.userState) := by
  intro p hp
  have hl2 : ((sortJS (fun a b => subCmp a.subContentId b.subContentId)
      (B.listByContent s cid uid)).filter (fun st => st.preload)).map
      (fun st => (st.dataType, st.userState)) = l := by
    simpa [generateContentUserDataIntegration] using hl
  rw [← hl2] at hp
  rcases List.mem_map.mp hp with ⟨st, hst, hfp⟩
  rcases List.mem_filter.mp hst with ⟨hmem, hpre⟩
  exact ⟨st, (sortJS_perm _ _).mem_iff.mp hmem, by simpa using hpre, hfp.symm⟩

/-- The delivered sequence has exactly one element per preload-true record of
the backend's listing. -/
theorem integration_length {σ : Type} (B : BackendOps σ) (s : σ) (cid uid : String)
    (l : List (String × String))
    (hl : (generateContentUserDataIntegration B (some s) cid uid).1 = some l) :
    l.length = ((B.listByContent s cid uid).filter (fun st => st.preload)).length := by
  have hl2 : ((sortJS (fun a b => subCmp a.subContentId b.subContentId)
      (B.listByContent s cid uid)).filter (fun st => st.preload)).map
      (fun st => (st.dataType, st.userState)) = l := by
    simpa [generateContentUserDataIntegration] using hl
  rw [← hl2, List.length_map]
  exact ((sortJS_perm (fun a b => subCmp a.subContentId b.subContentId)
    (B.listByContent s cid uid)).filter (fun st => st.preload)).length_eq

/-- C1: the spec states that with no storage backend configured,
`saveContentUserData` is a silent no-op even when `invalidate` is true.  The
code's invalidate branch calls `deleteContentUserDataByUserId` on the
unconfigured (undefined) storage without the null guard every sibling method
has, so it throws a TypeError instead of returning successfully.  This
theorem evaluates the embedded code at that failing input. -/
theorem saveContentUserData_no_backend_invalidate_throws :
    saveContentUserData memBackend none "content1" "state" "0" "payload"
        (JSVal.bool true) (JSVal.bool false) "user1"
      = (Except.error JsError.typeErrorUndefinedStorage, []) := rfl

/-- C2: a non-boolean `invalidate` or `preload` makes `saveContentUserData`
fail with the validation error before any backend call is made (the call log
is empty), whether or not a backend is configured. -/
theorem saveContentUserData_validation {σ : Type} (B : BackendOps σ)
    (store : Option σ) (contentId dataType subContentId userState : String)
    (invalidate preload : JSVal) (userId : String)
    (h : invalidate.isBoolean = false ∨ preload.isBoolean = false) :
    saveContentUserData B store contentId dataType subContentId userState
        invalidate preload userId
      = (Except.error JsError.validationError, []) := by
  unfold saveContentUserData
  rcases h with h | h <;> rw [h] <;> simp

/-- Witness for C2: `invalidate` passed as the string `"true"`. -/
theorem saveContentUserData_validation_witness :
    (JSVal.str "true").isBoolean = false
    ∧ saveContentUserData memBackend (some []) "content1" "state" "0" "payload"
        (JSVal.str "true") (JSVal.bool true) "user1"
      = (Except.error JsError.validationError, []) :=
  ⟨rfl, saveContentUserData_validation memBackend (some []) "content1" "state" "0"
      "payload" (JSVal.str "true") (JSVal.bool true) "user1" (Or.inl rfl)⟩

/-- C3: with a configured backend, `invalidate = true` turns the save into a
delete of all records of (contentId, user): the only backend call is
`deleteContentUserDataByUserId` with exactly those two arguments, the
`dataType` / `subContentId` / `userState` / `preload` arguments have no
effect on the result, and for a backend satisfying the contract a subsequent
load of any of that user's keys under that contentId returns absent. -/
theorem saveContentUserData_invalidate_deletes {σ : Type} (B : BackendOps σ)
    (hB : BackendContract B) (s : σ)
    (contentId dataType subContentId userState : String) (pre : Bool) (userId : String) :
    saveContentUserData B (some s) contentId dataType subContentId userState
        (JSVal.bool true) (JSVal.bool pre) userId
      = (Except.ok (some (B.deleteContentUserDataByUserId s contentId userId)),
         [BackendCall.deleteContentUserDataByUserId contentId userId])
    ∧ (∀ (dataType2 subContentId2 userState2 : String) (pre2 : Bool),
        saveContentUserData B (some s) contentId dataType2 subContentId2 userState2
            (JSVal.bool true) (JSVal.bool pre2) userId
          = saveContentUserData B (some s) contentId dataType subContentId userState
              (JSVal.bool true) (JSVal.bool pre) userId)
    ∧ (∀ (dataType3 subContentId3 : String),
        (loadContentUserData B (some (B.deleteContentUserDataByUserId s contentId userId))
            contentId dataType3 subContentId3 userId).1 = none) := by
  refine ⟨rfl, fun _ _ _ _ => rfl, fun dataType3 subContentId3 => ?_⟩
  simpa [loadContentUserData] using
    hB.load_after_deleteByUser s contentId userId dataType3 subContentId3

/-- Witness for C3: a stored record of user u1 vanishes after a save with
`invalidate = true` that names a different dataType and subContentId. -/
theorem saveContentUserData_invalidate_deletes_witness :
    (loadContentUserData memBackend
        (some (memBackend.deleteContentUserDataByUserId
          [⟨"c1", "u1", "d1", "0", "s1", true⟩] "c1" "u1"))
        "c1" "d1" "0" "u1").1 = none :=
  (saveContentUserData_invalidate_deletes memBackend memContract
      [⟨"c1", "u1", "d1", "0", "s1", true⟩] "c1" "d2" "7" "s2" false "u1").2.2 "d1" "0"

/-- C8: upsert round-trip: a save with `invalidate = false` through the
manager followed by a load of the same key through the manager returns a
record whose `userState` equals the saved one, for every backend satisfying
the upsert-by-key contract. -/
theorem save_then_load_roundtrip {σ : Type} (B : BackendOps σ)
    (hB : BackendContract B) (s : σ)
    (contentId dataType subContentId userState : String) (pre : Bool) (userId : String) :
    ∀ s2 : σ,
      (saveContentUserData B (some s) contentId dataType subContentId userState
          (JSVal.bool false) (JSVal.bool pre) userId).1 = Except.ok (some s2) →
      ∃ r : IContentUserData,
        (loadContentUserData B (some s2) contentId dataType subContentId userId).1 = some r
        ∧ r.userState = userState := by
  intro s2 h
  have hs2 : B.saveContentUserData s contentId dataType subContentId userState pre userId
      = s2 := by
    simpa [saveContentUserData, JSVal.isBoolean, JSVal.asBool] using h
  refine ⟨⟨contentId, userId, dataType, subContentId, userState, pre⟩, ?_, rfl⟩
  rw [← hs2]
  simpa [loadContentUserData] using
    hB.load_after_save s contentId dataType subContentId userState pre userId

/-- Witness for C8: concrete round-trip on the in-memory backend. -/
theorem save_then_load_roundtrip_witness :
    ∃ r : IContentUserData,
      (loadContentUserData memBackend
          (some (memBackend.saveContentUserData [] "c1" "d1" "0" "mystate" true "u1"))
          "c1" "d1" "0" "u1").1 = some r
      ∧ r.userState = "mystate" :=
  save_then_load_roundtrip memBackend memContract [] "c1" "d1" "0" "mystate" true "u1"
    (memBackend.saveContentUserData [] "c1" "d1" "0" "mystate" true "u1") rfl

/-- C4: the delivered sequence contains exactly the preload-true records
(every element comes from a preload-true record and there is one element per
preload-true record); for records with subContentIds "0" (preload), "1"
(no preload), "2" (preload) the result has exactly the two elements of "0"
and "2", in that order. -/
theorem integration_filters_preload {σ : Type} (B : BackendOps σ) (s : σ)
    (cid uid : String) :
    (∀ l, (generateContentUserDataIntegration B (some s) cid uid).1 = some l →
      (∀ p ∈ l, ∃ r ∈ B.listByContent s cid uid,
        r.preload = true ∧ p = (r.dataType, r.userState))
      ∧ l.length = ((B.listByContent s cid uid).filter (fun st => st.preload)).length)
    ∧ (∀ r0 r1 r2 : IContentUserData,
        r0.subContentId = "0" → r0.preload = true →
        r1.subContentId = "1" → r1.preload = false →
        r2.subContentId = "2" → r2.preload = true →
        B.listByContent s cid uid = [r0, r1, r2] →
        (generateContentUserDataIntegration B (some s) cid uid).1
          = some [(r0.dataType, r0.userState), (r2.dataType, r2.userState)]) := by
  refine ⟨fun l hl =>
    ⟨integration_mem B s cid uid l hl, integration_length B s cid uid l hl⟩, ?_⟩
  intro r0 r1 r2 h0s h0p h1s h1p h2s h2p hlist
  simp +decide [generateContentUserDataIntegration, hlist, sortJS, insertSorted,
    subCmp, jsNumber, h0s, h0p, h1s, h1p, h2s, h2p]

/-- Witness for C4 on the in-memory backend. -/
theorem integration_filters_preload_witness :
    (generateContentUserDataIntegration memBackend
        (some [⟨"c", "u", "d0", "0", "s0", true⟩, ⟨"c", "u", "d1", "1", "s1", false⟩,
               ⟨"c", "u", "d2", "2", "s2", true⟩]) "c" "u").1
      = some [("d0", "s0"), ("d2", "s2")] :=
  (integration_filters_preload memBackend
      [⟨"c", "u", "d0", "0", "s0", true⟩, ⟨"c", "u", "d1", "1", "s1", false⟩,
       ⟨"c", "u", "d2", "2", "s2", true⟩] "c" "u").2
    ⟨"c", "u", "d0", "0", "s0", true⟩ ⟨"c", "u", "d1", "1", "s1", false⟩
    ⟨"c", "u", "d2", "2", "s2", true⟩ rfl rfl rfl rfl rfl rfl (by decide)

/-- C5: the sort is numeric, not lexicographic: preload-true records listed
with subContentIds "2", "10", "1" are delivered in the order "1", "2",
"10". -/
theorem integration_sorts_numerically {σ : Type} (B : BackendOps σ) (s : σ)
    (cid uid : String) (ra rb rc : IContentUserData)
    (has : ra.subContentId = "2") (hap : ra.preload = true)
    (hbs : rb.subContentId = "10") (hbp : rb.preload = true)
    (hcs : rc.subContentId = "1") (hcp : rc.preload = true)
    (hlist : B.listByContent s cid uid = [ra, rb, rc]) :
    (generateContentUserDataIntegration B (some s) cid uid).1
      = some [(rc.dataType, rc.userState), (ra.dataType, ra.userState),
              (rb.dataType, rb.userState)] := by
  simp +decide [generateContentUserDataIntegration, hlist, sortJS, insertSorted,
    subCmp, jsNumber, has, hap, hbs, hbp, hcs, hcp]

/-- Witness for C5 on the in-memory backend. -/
theorem integration_sorts_numerically_witness :
    (generateContentUserDataIntegration memBackend
        (some [⟨"c", "u", "da", "2", "sa", true⟩, ⟨"c", "u", "db", "10", "sb", true⟩,
               ⟨"c", "u", "dc", "1", "sc", true⟩]) "c" "u").1
      = some [("dc", "sc"), ("da", "sa"), ("db", "sb")] :=
  integration_sorts_numerically memBackend
    [⟨"c", "u", "da", "2", "sa", true⟩, ⟨"c", "u", "db", "10", "sb", true⟩,
     ⟨"c", "u", "dc", "1", "sc", true⟩] "c" "u"
    ⟨"c", "u", "da", "2", "sa", true⟩ ⟨"c", "u", "db", "10", "sb", true⟩
    ⟨"c", "u", "dc", "1", "sc", true⟩ rfl rfl rfl rfl rfl rfl (by decide)

/-- C6: with no backend configured the integration returns absent
(undefined); with a backend whose listing contains no preload-true record it
returns the empty sequence, not absent and not an error. -/
theorem integration_absent_or_empty {σ : Type} (B : BackendOps σ)
    (cid uid : String) :
    (generateContentUserDataIntegration B none cid uid).1 = none
    ∧ ∀ s : σ, (∀ r ∈ B.listByContent s cid uid, r.preload = false) →
        (generateContentUserDataIntegration B (some s) cid uid).1 = some [] := by
  refine ⟨rfl, fun s h => ?_⟩
  have hnil : (sortJS (fun a b => subCmp a.subContentId b.subContentId)
      (B.listByContent s cid uid)).filter (fun st => st.preload) = [] := by
    rw [List.filter_eq_nil_iff]
    intro a ha
    simp [h a ((sortJS_perm _ _).mem_iff.mp ha)]
  simp [generateContentUserDataIntegration, hnil]

/-- Witness for C6: a single stored record with preload = false yields the
empty sequence. -/
theorem integration_absent_or_empty_witness :
    (generateContentUserDataIntegration memBackend
        (some [⟨"c", "u", "d", "0", "s", false⟩]) "c" "u").1 = some [] :=
  (integration_absent_or_empty memBackend "c" "u").2
    [⟨"c", "u", "d", "0", "s", false⟩] (by decide)

/-- C7: each element of the delivered sequence is the single pair (dataType,
userState) of one surviving record, one element per preload-true record;
records sharing a dataType are not merged, as the concrete instance with two
records of the same dataType shows (the result keeps both entries). -/
theorem integration_one_entry_per_record {σ : Type} (B : BackendOps σ) (s : σ)
    (cid uid : String) :
    (∀ l, (generateContentUserDataIntegration B (some s) cid uid).1 = some l →
      l.length = ((B.listByContent s cid uid).filter (fun st => st.preload)).length
      ∧ ∀ p ∈ l, ∃ r ∈ B.listByContent s cid uid,
          r.preload = true ∧ p = (r.dataType, r.userState))
    ∧ (∀ ra rb : IContentUserData,
        ra.subContentId = "0" → ra.preload = true →
        rb.subContentId = "1" → rb.preload = true →
        ra.dataType = rb.dataType →
        B.listByContent s cid uid = [ra, rb] →
        (generateContentUserDataIntegration B (some s) cid uid).1
          = some [(ra.dataType, ra.userState), (rb.dataType, rb.userState)]) := by
  refine ⟨fun l hl =>
    ⟨integration_length B s cid uid l hl, integration_mem B s cid uid l hl⟩, ?_⟩
  intro ra rb has hap hbs hbp _ hlist
  simp +decide [generateContentUserDataIntegration, hlist, sortJS, insertSorted,
    subCmp, jsNumber, has, hap, hbs, hbp]

/-- Witness for C7: two preload-true records with the same dataType produce
two separate entries. -/
theorem integration_one_entry_per_record_witness :
    (generateContentUserDataIntegration memBackend
        (some [⟨"c", "u", "d", "0", "sa", true⟩, ⟨"c", "u", "d", "1", "sb", true⟩])
        "c" "u").1
      = some [("d", "sa"), ("d", "sb")] :=
  (integration_one_entry_per_record memBackend
      [⟨"c", "u", "d", "0", "sa", true⟩, ⟨"c", "u", "d", "1", "sb", true⟩] "c" "u").2
    ⟨"c", "u", "d", "0", "sa", true⟩ ⟨"c", "u", "d", "1", "sb", true⟩
    rfl rfl rfl rfl rfl (by decide)

/-- C9: the transport adapter coerces the wire values with strict equality
against the number 1 and the string "1": the flag passed to the state
manager is true exactly for those two wire values and false for every other
value (in particular the boolean true and the string "true" both become
false), and the coerced flags are boolean-typed, so the adapter's call can
never fail the manager's validation. -/
theorem postContentUserData_wire_coercion :
    (∀ v : JSVal, wireCoerce v = true ↔ (v = JSVal.num 1 ∨ v = JSVal.str "1"))
    ∧ wireCoerce (JSVal.bool true) = false
    ∧ wireCoerce (JSVal.str "true") = false
    ∧ (∀ {σ : Type} (B : BackendOps σ) (store : Option σ)
        (cid dt sub bd : String) (vi vp : JSVal) (uid : String),
        (postContentUserData B store cid dt sub bd vi vp uid).1
          ≠ Except.error JsError.validationError) := by
  refine ⟨fun v => ?_, rfl, rfl, ?_⟩
  · simp [wireCoerce, Bool.or_eq_true, beq_iff_eq]
  · intro σ B store cid dt sub bd vi vp uid
    unfold postContentUserData saveContentUserData
    simp only [JSVal.isBoolean, Bool.and_self, Bool.not_true, not_true_eq_false,
      if_false, ite_false]
    split
    · cases store <;> simp
    · cases store <;> simp

/-- C10: the empty-string subContentId participates in the numeric sort with
value 0 (it is not a parse failure): it compares strictly below every
positive decimal subContentId, ties with "0", and in the pipeline a
preload-true record with subContentId "" is delivered before one with a
positive subContentId. -/
theorem integration_empty_subContentId_zero {σ : Type} (B : BackendOps σ) (s : σ)
    (cid uid : String) (rE rP : IContentUserData) (k : Int)
    (hEs : rE.subContentId = "") (hEp : rE.preload = true)
    (hPp : rP.preload = true) (hPk : jsNumber rP.subContentId = some k)
    (hk : 0 < k) (hlist : B.listByContent s cid uid = [rP, rE]) :
    jsNumber "" = some 0
    ∧ subCmp "" rP.subContentId < 0
    ∧ subCmp "" "0" = 0 ∧ subCmp "0" "" = 0
    ∧ (generateContentUserDataIntegration B (some s) cid uid).1
        = some [(rE.dataType, rE.userState), (rP.dataType, rP.userState)] := by
  have hjE : jsNumber rE.subContentId = some 0 := by rw [hEs]; rfl
  refine ⟨rfl, ?_, rfl, rfl, ?_⟩
  · simp only [subCmp, hPk]
    norm_num [jsNumber]
    omega
  · have hns : ¬ (subCmp rP.subContentId rE.subContentId ≤ 0) := by
      simp only [subCmp, hPk, hjE]
      omega
    simp [generateContentUserDataIntegration, hlist, sortJS, insertSorted,
      hns, hEp, hPp]

/-- Witness for C10: a record with subContentId "" is delivered before one
with subContentId "5". -/
theorem integration_empty_subContentId_zero_witness :
    (generateContentUserDataIntegration memBackend
        (some [⟨"c", "u", "dP", "5", "sP", true⟩, ⟨"c", "u", "dE", "", "sE", true⟩])
        "c" "u").1
      = some [("dE", "sE"), ("dP", "sP")] :=
  (integration_empty_subContentId_zero memBackend
      [⟨"c", "u", "dP", "5", "sP", true⟩, ⟨"c", "u", "dE", "", "sE", true⟩] "c" "u"
      ⟨"c", "u", "dE", "", "sE", true⟩ ⟨"c", "u", "dP", "5", "sP", true⟩ 5
      rfl rfl rfl (by decide) (by decide) (by decide)).2.2.2.2

/-- Witness for C9 at the concrete wire values 1, "1" and true. -/
theorem postContentUserData_wire_coercion_witness :
    wireCoerce (JSVal.num 1) = true ∧ wireCoerce (JSVal.str "1") = true
    ∧ wireCoerce (JSVal.bool true) = false :=
  ⟨(postContentUserData_wire_coercion.1 (JSVal.num 1)).mpr (Or.inl rfl),
   (postContentUserData_wire_coercion.1 (JSVal.str "1")).mpr (Or.inr rfl),
   postContentUserData_wire_coercion.2.1⟩
